import Mathlib

/-!
Shallow embedding of the Vedic-Jyotish derivation engine
(src/calculations and src/constants of the repository), with proofs of
the specification claims about it.

Numeric conventions of the embedding:
* Python floats are modelled as exact rationals (ℚ); the decimal
  constants of the source are carried verbatim as rational literals.
* Python `int(x)` truncates toward zero: `pyint`.
* Python `x % m` on reals returns `x - m * floor (x / m)` for a
  positive modulus `m`: `pymod`.
* Python `%` on integers (nonnegative for a positive modulus) matches
  `Int.emod`, which Lean writes `%`.
-/

namespace VedicJyotish

def emptyStr : String := ""

/-- Python `int()` truncation toward zero, on a rational value. -/
def pyint (x : ℚ) : ℤ := if 0 ≤ x then ⌊x⌋ else -⌊-x⌋

/-- Python float modulo `x % m`; for `m > 0` the result lies in `[0, m)`. -/
def pymod (x m : ℚ) : ℚ := x - m * ⌊x / m⌋

theorem pyint_of_nonneg {x : ℚ} (h : 0 ≤ x) : pyint x = ⌊x⌋ := if_pos h

theorem pymod_nonneg (x : ℚ) {m : ℚ} (hm : 0 < m) : 0 ≤ pymod x m := by
  have h := Int.floor_le (x / m)
  have h2 : m * ⌊x / m⌋ ≤ m * (x / m) := by
    exact mul_le_mul_of_nonneg_left h (le_of_lt hm)
  have h3 : m * (x / m) = x := by field_simp
  unfold pymod
  nlinarith

theorem pymod_lt (x : ℚ) {m : ℚ} (hm : 0 < m) : pymod x m < m := by
  have h := Int.lt_floor_add_one (x / m)
  have h2 : m * (x / m) < m * (⌊x / m⌋ + 1) := by
    exact mul_lt_mul_of_pos_left h hm
  have h3 : m * (x / m) = x := by field_simp
  unfold pymod
  nlinarith

/-! ## Sign and nakshatra locators (src/constants/rashis.py, nakshatras.py) -/

/-- `longitude_to_rashi` from src/constants/rashis.py:
`int(longitude / 30) % 12 + 1`. -/
def longitude_to_rashi (longitude : ℚ) : ℤ :=
  pyint (longitude / 30) % 12 + 1

/-- `NAKSHATRA_SPAN` from src/constants/nakshatras.py, the decimal
constant as written in the source. -/
def NAKSHATRA_SPAN : ℚ := 13.333333333333334

/-- `PADA_SPAN` from src/constants/nakshatras.py. -/
def PADA_SPAN : ℚ := 3.333333333333333

/-- `longitude_to_nakshatra` from src/constants/nakshatras.py:
`int(longitude / NAKSHATRA_SPAN) % 27 + 1`. -/
def longitude_to_nakshatra (longitude : ℚ) : ℤ :=
  pyint (longitude / NAKSHATRA_SPAN) % 27 + 1

/-- `longitude_to_pada` from src/constants/nakshatras.py. -/
def longitude_to_pada (longitude : ℚ) : ℤ :=
  pyint ((longitude - (longitude_to_nakshatra longitude - 1 : ℤ) * NAKSHATRA_SPAN)
    / PADA_SPAN) % 4 + 1

/-- `nakshatra_traversed_fraction` from src/constants/nakshatras.py. -/
def nakshatra_traversed_fraction (longitude : ℚ) : ℚ :=
  (longitude - (longitude_to_nakshatra longitude - 1 : ℤ) * NAKSHATRA_SPAN)
    / NAKSHATRA_SPAN

/-! ## D9 Navamsa (src/calculations/divisional.py, `_d9_sign`) -/

/-- `_d9_sign` from src/calculations/divisional.py: element-start rule. -/
def _d9_sign (longitude : ℚ) : ℤ :=
  let rashi := longitude_to_rashi longitude
  let degree := pymod longitude 30
  let part := pyint (degree / (30 / 9))
  let start := if rashi = 1 ∨ rashi = 5 ∨ rashi = 9 then 1
    else if rashi = 2 ∨ rashi = 6 ∨ rashi = 10 then 10
    else if rashi = 3 ∨ rashi = 7 ∨ rashi = 11 then 7
    else 4
  (start - 1 + part) % 12 + 1

/-- Modelled from the spec: the absolute-pada D9 formula
`(floor (longitude / (360/108)) mod 12) + 1`, the comparison side of
the refinement claim C2. -/
def d9_absolute_pada (longitude : ℚ) : ℤ :=
  ⌊longitude / (360 / 108)⌋ % 12 + 1

/-- C2: for every longitude in `[0, 360)` the element-start D9 rule of the
code agrees with the absolute-pada formula of the spec. -/
theorem C2_d9_element_start_eq_absolute_pada (L : ℚ)
    (h0 : 0 ≤ L) (h1 : L < 360) :
    _d9_sign L = d9_absolute_pada L := by
  have h30 : (0:ℚ) < 30 := by norm_num
  have hq0 : 0 ≤ L / 30 := by positivity
  -- the 0-based rashi index
  set r : ℤ := ⌊L / 30⌋ with hrdef
  have hr0 : 0 ≤ r := Int.le_floor.mpr (by exact_mod_cast hq0)
  have hr12 : r < 12 := Int.floor_lt.mpr (by
    rw [div_lt_iff₀ h30]
    norm_num
    linarith)
  -- the rashi of the code is r + 1
  have hrashi : longitude_to_rashi L = r + 1 := by
    unfold longitude_to_rashi
    rw [pyint_of_nonneg hq0, ← hrdef, Int.emod_eq_of_lt hr0 hr12]
  -- the degree within the sign
  have hdeg : pymod L 30 = L - 30 * (r : ℚ) := by
    unfold pymod
    rw [← hrdef]
  have hdeg0 : 0 ≤ pymod L 30 := pymod_nonneg L h30
  -- the part index, written through the absolute pada number
  set p : ℤ := ⌊3 * L / 10⌋ with hpdef
  have hpart : pyint (pymod L 30 / (30 / 9)) = p - 9 * r := by
    rw [pyint_of_nonneg (by positivity)]
    have harg : pymod L 30 / (30 / 9) = 3 * L / 10 - ((9 * r : ℤ) : ℚ) := by
      rw [hdeg]
      push_cast
      ring
    rw [harg, Int.floor_sub_int, ← hpdef]
  have habs : d9_absolute_pada L = p % 12 + 1 := by
    unfold d9_absolute_pada
    have : L / ((360 : ℚ) / 108) = 3 * L / 10 := by
      rw [show ((360 : ℚ) / 108) = 10 / 3 by norm_num]
      ring
    rw [this, ← hpdef]
  rw [habs]
  show (let rashi := longitude_to_rashi L
    let degree := pymod L 30
    let part := pyint (degree / (30 / 9))
    let start := if rashi = 1 ∨ rashi = 5 ∨ rashi = 9 then 1
      else if rashi = 2 ∨ rashi = 6 ∨ rashi = 10 then 10
      else if rashi = 3 ∨ rashi = 7 ∨ rashi = 11 then 7
      else 4
    (start - 1 + part) % 12 + 1) = p % 12 + 1
  simp only [hrashi, hpart]
  interval_cases r <;> norm_num <;> omega

/-- Witness for C2 at the concrete longitude 123.45. -/
theorem C2_witness :
    _d9_sign (123.45 : ℚ) = d9_absolute_pada (123.45 : ℚ) :=
  C2_d9_element_start_eq_absolute_pada (123.45 : ℚ) (by norm_num) (by norm_num)

/-! ## D30 Trimsamsa (src/calculations/divisional.py, `_d30_sign`,
and src/constants/divisional_mappings.py) -/

/-- `TRIMSAMSA_ODD` from src/constants/divisional_mappings.py:
(span in degrees, ruling lord) for odd signs. -/
def TRIMSAMSA_ODD : List (ℚ × String) :=
  [(5, ("Mars")), (5, ("Saturn")), (8, ("Jupiter")), (7, ("Mercury")), (5, ("Venus"))]

/-- `TRIMSAMSA_EVEN` from src/constants/divisional_mappings.py. -/
def TRIMSAMSA_EVEN : List (ℚ × String) :=
  [(5, ("Venus")), (7, ("Mercury")), (8, ("Jupiter")), (5, ("Saturn")), (5, ("Mars"))]

/-- `TRIMSAMSA_SIGN` from src/constants/divisional_mappings.py:
lord name to target sign. -/
def TRIMSAMSA_SIGN : String → ℤ
  | "Mars" => 1
  | "Saturn" => 11
  | "Jupiter" => 9
  | "Mercury" => 3
  | "Venus" => 7
  | _ => 0

/-- The span-scanning loop of `_d30_sign`: walks the table keeping the
cumulative degree bound, returns the first lord whose span contains the
degree, `none` when the loop falls through. -/
def trimScan (degree : ℚ) : ℚ → List (ℚ × String) → Option String
  | _, [] => none
  | cumulative, (span, lord) :: rest =>
    if degree < cumulative + span then some lord
    else trimScan degree (cumulative + span) rest

/-- `_d30_sign` from src/calculations/divisional.py; the fallback arm
models the defensive `return` after the loop. -/
def _d30_sign (longitude : ℚ) : ℤ :=
  let rashi := longitude_to_rashi longitude
  let degree := pymod longitude 30
  let table := if rashi % 2 = 1 then TRIMSAMSA_ODD else TRIMSAMSA_EVEN
  match trimScan degree 0 table with
  | some lord => TRIMSAMSA_SIGN lord
  | none => TRIMSAMSA_SIGN ((table.getLast?.map Prod.snd).getD emptyStr)

/-- C10: both trimsamsa span tables sum to 30, the degree within the sign
is strictly below 30, the scanning loop always finds a span (so the
defensive fallback is unreachable), and the result is one of the five
lord-mapped signs 1, 3, 7, 9, 11. -/
theorem C10_d30_scan_total (L : ℚ) :
    ((TRIMSAMSA_ODD.map Prod.fst).sum = 30 ∧
      (TRIMSAMSA_EVEN.map Prod.fst).sum = 30) ∧
    pymod L 30 < (TRIMSAMSA_ODD.map Prod.fst).sum ∧
    pymod L 30 < (TRIMSAMSA_EVEN.map Prod.fst).sum ∧
    (trimScan (pymod L 30) 0 TRIMSAMSA_ODD).isSome = true ∧
    (trimScan (pymod L 30) 0 TRIMSAMSA_EVEN).isSome = true ∧
    (_d30_sign L = 1 ∨ _d30_sign L = 3 ∨ _d30_sign L = 7 ∨
      _d30_sign L = 9 ∨ _d30_sign L = 11) := by
  have hsumO : (TRIMSAMSA_ODD.map Prod.fst).sum = 30 := by
    norm_num [TRIMSAMSA_ODD]
  have hsumE : (TRIMSAMSA_EVEN.map Prod.fst).sum = 30 := by
    norm_num [TRIMSAMSA_EVEN]
  have h30 : pymod L 30 < 30 := pymod_lt L (by norm_num)
  have hO : (trimScan (pymod L 30) 0 TRIMSAMSA_ODD).isSome = true := by
    simp only [TRIMSAMSA_ODD, trimScan]
    split_ifs <;> first | rfl | (exfalso; linarith)
  have hE : (trimScan (pymod L 30) 0 TRIMSAMSA_EVEN).isSome = true := by
    simp only [TRIMSAMSA_EVEN, trimScan]
    split_ifs <;> first | rfl | (exfalso; linarith)
  refine ⟨⟨hsumO, hsumE⟩, by rw [hsumO]; exact h30, by rw [hsumE]; exact h30,
    hO, hE, ?_⟩
  unfold _d30_sign
  by_cases hodd : longitude_to_rashi L % 2 = 1 <;>
    simp only [hodd, if_true, if_false, if_pos, if_neg, not_false_iff] <;>
    simp only [TRIMSAMSA_ODD, TRIMSAMSA_EVEN, trimScan] <;>
    split_ifs <;>
    first
      | (exfalso; linarith)
      | simp [TRIMSAMSA_SIGN]

/-! ## Panchanga (src/calculations/panchanga.py) -/

/-- `TITHI_NAMES` from src/calculations/panchanga.py. -/
def TITHI_NAMES : List String :=
  [("Pratipada"), ("Dwitiya"), ("Tritiya"), ("Chaturthi"), ("Panchami"),
   ("Shashthi"), ("Saptami"), ("Ashtami"), ("Navami"), ("Dashami"),
   ("Ekadashi"), ("Dwadashi"), ("Trayodashi"), ("Chaturdashi"), ("Purnima"),
   ("Pratipada"), ("Dwitiya"), ("Tritiya"), ("Chaturthi"), ("Panchami"),
   ("Shashthi"), ("Saptami"), ("Ashtami"), ("Navami"), ("Dashami"),
   ("Ekadashi"), ("Dwadashi"), ("Trayodashi"), ("Chaturdashi"), ("Amavasya")]

/-- `KARANA_FIXED` from src/calculations/panchanga.py. -/
def KARANA_FIXED : List String :=
  [("Kimstughna"), ("Shakuni"), ("Chatushpada"), ("Nagava")]

/-- `KARANA_REPEATING` from src/calculations/panchanga.py. -/
def KARANA_REPEATING : List String :=
  [("Bava"), ("Balava"), ("Kaulava"), ("Taitila"), ("Gara"), ("Vanija"), ("Vishti")]

/-- `YOGA_NAMES` from src/calculations/panchanga.py. -/
def YOGA_NAMES : List String :=
  [("Vishkambha"), ("Priti"), ("Ayushman"), ("Saubhagya"), ("Shobhana"),
   ("Atiganda"), ("Sukarma"), ("Dhriti"), ("Shula"), ("Ganda"),
   ("Vriddhi"), ("Dhruva"), ("Vyaghata"), ("Harshana"), ("Vajra"),
   ("Siddhi"), ("Vyatipata"), ("Variyan"), ("Parigha"), ("Shiva"),
   ("Siddha"), ("Sadhya"), ("Shubha"), ("Shukla"), ("Brahma"),
   ("Indra"), ("Vaidhriti")]

/-- `VARA_NAMES` from src/calculations/panchanga.py, index 0 = Sunday. -/
def VARA_NAMES : List String :=
  [("Ravivara"), ("Somavara"), ("Mangalavara"), ("Budhavara"),
   ("Guruvara"), ("Shukravara"), ("Shanivara")]

/-- `VARA_ENGLISH` from src/calculations/panchanga.py. -/
def VARA_ENGLISH : List String :=
  [("Sunday"), ("Monday"), ("Tuesday"), ("Wednesday"),
   ("Thursday"), ("Friday"), ("Saturday")]

/-- `NAKSHATRA_NAMES` from src/constants/nakshatras.py
(index 0 = nakshatra 1). -/
def NAKSHATRA_NAMES : List String :=
  [("Ashwini"), ("Bharani"), ("Krittika"), ("Rohini"), ("Mrigashira"),
   ("Ardra"), ("Punarvasu"), ("Pushya"), ("Ashlesha"), ("Magha"),
   ("Purva Phalguni"), ("Uttara Phalguni"), ("Hasta"), ("Chitra"), ("Swati"),
   ("Vishakha"), ("Anuradha"), ("Jyeshtha"), ("Moola"), ("Purva Ashadha"),
   ("Uttara Ashadha"), ("Shravana"), ("Dhanishtha"), ("Shatabhisha"),
   ("Purva Bhadrapada"), ("Uttara Bhadrapada"), ("Revati")]

/-- `NAKSHATRA_LORDS` from src/constants/nakshatras.py
(index 0 = nakshatra 1). -/
def NAKSHATRA_LORDS : List String :=
  [("Ketu"), ("Venus"), ("Sun"), ("Moon"), ("Mars"),
   ("Rahu"), ("Jupiter"), ("Saturn"), ("Mercury"), ("Ketu"),
   ("Venus"), ("Sun"), ("Moon"), ("Mars"), ("Rahu"),
   ("Jupiter"), ("Saturn"), ("Mercury"), ("Ketu"), ("Venus"),
   ("Sun"), ("Moon"), ("Mars"), ("Rahu"), ("Jupiter"),
   ("Saturn"), ("Mercury")]

/-- One computed panchanga record, the fields of the dict returned by
`compute_panchanga`. -/
structure Panchanga where
  tithi_number : ℤ
  tithi_name : String
  paksha : String
  karana_number : ℤ
  karana_name : String
  yoga_number : ℤ
  yoga_name : String
  nakshatra_number : ℤ
  nakshatra_name : String
  nakshatra_lord : String
  nakshatra_pada : ℤ
  vara_idx : ℤ
  vara_name : String
  vara_english : String

/-- `compute_panchanga` from src/calculations/panchanga.py.  The sunrise
instant, delegated in the source to the external Ephemeris Provider via
`compute_sunrise`, is passed here as the parameter `sunrise_jd`. -/
def compute_panchanga (sun_longitude moon_longitude jd tz_offset : ℚ)
    (sunrise_jd : ℚ) : Panchanga :=
  let moon_sun_diff := pymod (moon_longitude - sun_longitude) 360
  let tithi_num := pyint (moon_sun_diff / 12)
  let karana_num := pyint (moon_sun_diff / 6)
  let karana_name :=
    if karana_num = 0 then KARANA_FIXED.getD 0 emptyStr
    else if karana_num = 57 then KARANA_FIXED.getD 1 emptyStr
    else if karana_num = 58 then KARANA_FIXED.getD 2 emptyStr
    else if karana_num = 59 then KARANA_FIXED.getD 3 emptyStr
    else KARANA_REPEATING.getD ((karana_num - 1) % 7).toNat emptyStr
  let yoga_sum := pymod (sun_longitude + moon_longitude) 360
  let yoga_num := pyint (yoga_sum / (360 / 27))
  let nak := longitude_to_nakshatra moon_longitude
  let local_jd := jd + tz_offset / 24
  let vara_jd := if jd < sunrise_jd then local_jd - 1 else local_jd
  let vara_idx := pyint (vara_jd + 1.5) % 7
  { tithi_number := tithi_num + 1,
    tithi_name := TITHI_NAMES.getD tithi_num.toNat emptyStr,
    paksha := if tithi_num < 15 then ("Shukla") else ("Krishna"),
    karana_number := karana_num + 1,
    karana_name := karana_name,
    yoga_number := yoga_num + 1,
    yoga_name := YOGA_NAMES.getD yoga_num.toNat emptyStr,
    nakshatra_number := nak,
    nakshatra_name := NAKSHATRA_NAMES.getD (nak - 1).toNat emptyStr,
    nakshatra_lord := NAKSHATRA_LORDS.getD (nak - 1).toNat emptyStr,
    nakshatra_pada := longitude_to_pada moon_longitude,
    vara_idx := vara_idx,
    vara_name := VARA_NAMES.getD vara_idx.toNat emptyStr,
    vara_english := VARA_ENGLISH.getD vara_idx.toNat emptyStr }

/-- Modelled from the spec: the karana naming rule as the spec words it,
for comparison with the code. -/
def karana_name_spec (k : ℤ) : String :=
  if k = 0 then ("Kimstughna")
  else if k = 57 then ("Shakuni")
  else if k = 58 then ("Chatushpada")
  else if k = 59 then ("Nagava")
  else KARANA_REPEATING.getD ((k - 1) % 7).toNat emptyStr

/-- C7: the karana index equals `floor (((moon - sun) mod 360) / 6)`, lies
in 0..59, the stored karana number is that index plus one, and the karana
name follows the fixed/repeating naming rule of the spec. -/
theorem C7_karana (sun moon jd tz sunrise : ℚ) :
    pyint (pymod (moon - sun) 360 / 6) = ⌊pymod (moon - sun) 360 / 6⌋ ∧
    0 ≤ pyint (pymod (moon - sun) 360 / 6) ∧
    pyint (pymod (moon - sun) 360 / 6) ≤ 59 ∧
    (compute_panchanga sun moon jd tz sunrise).karana_number =
      pyint (pymod (moon - sun) 360 / 6) + 1 ∧
    (compute_panchanga sun moon jd tz sunrise).karana_name =
      karana_name_spec (pyint (pymod (moon - sun) 360 / 6)) := by
  have h360 : (0:ℚ) < 360 := by norm_num
  have hd0 : 0 ≤ pymod (moon - sun) 360 := pymod_nonneg _ h360
  have hdlt : pymod (moon - sun) 360 < 360 := pymod_lt _ h360
  have harg : 0 ≤ pymod (moon - sun) 360 / 6 := by positivity
  have heq : pyint (pymod (moon - sun) 360 / 6) = ⌊pymod (moon - sun) 360 / 6⌋ :=
    pyint_of_nonneg harg
  have hlow : 0 ≤ pyint (pymod (moon - sun) 360 / 6) := by
    rw [heq]
    exact Int.le_floor.mpr (by exact_mod_cast harg)
  have hhigh : pyint (pymod (moon - sun) 360 / 6) ≤ 59 := by
    rw [heq]
    have : ⌊pymod (moon - sun) 360 / 6⌋ < 60 := Int.floor_lt.mpr (by
      rw [div_lt_iff₀ (by norm_num : (0:ℚ) < 6)]
      push_cast
      linarith)
    omega
  refine ⟨heq, hlow, hhigh, ?_, ?_⟩
  · simp only [compute_panchanga]
  · simp only [compute_panchanga, karana_name_spec, KARANA_FIXED, List.getD]
    split_ifs <;> rfl

/-- Modelled from the spec: the weekday index of the civil day containing
the local instant `t`, `floor (julian_day + 1.5) mod 7`, 0 = Sunday. -/
def spec_weekday (t : ℚ) : ℤ := ⌊t + 1.5⌋ % 7

/-- C6: when the birth instant strictly precedes the supplied sunrise
instant, the vara index is the previous civil day weekday, otherwise the
current civil day weekday; the index lies in 0..6 and is mapped through
the Sunday-first english table. -/
theorem C6_vara (sun moon jd tz sunrise : ℚ)
    (h : 0 ≤ jd + tz / 24) :
    (compute_panchanga sun moon jd tz sunrise).vara_idx =
      (if jd < sunrise then spec_weekday (jd + tz / 24 - 1)
        else spec_weekday (jd + tz / 24)) ∧
    0 ≤ (compute_panchanga sun moon jd tz sunrise).vara_idx ∧
    (compute_panchanga sun moon jd tz sunrise).vara_idx < 7 ∧
    (compute_panchanga sun moon jd tz sunrise).vara_english =
      VARA_ENGLISH.getD (compute_panchanga sun moon jd tz sunrise).vara_idx.toNat
        emptyStr ∧
    VARA_ENGLISH = [("Sunday"), ("Monday"), ("Tuesday"), ("Wednesday"),
      ("Thursday"), ("Friday"), ("Saturday")] := by
  have hmain : (compute_panchanga sun moon jd tz sunrise).vara_idx =
      (if jd < sunrise then spec_weekday (jd + tz / 24 - 1)
        else spec_weekday (jd + tz / 24)) := by
    simp only [compute_panchanga, spec_weekday]
    by_cases hb : jd < sunrise
    · simp only [hb, if_true]
      rw [pyint_of_nonneg (by linarith)]
    · simp only [hb, if_false]
      rw [pyint_of_nonneg (by linarith)]
  refine ⟨hmain, ?_, ?_, ?_, rfl⟩
  · simp only [compute_panchanga]
    exact Int.emod_nonneg _ (by norm_num)
  · simp only [compute_panchanga]
    exact Int.emod_lt_of_pos _ (by norm_num)
  · simp only [compute_panchanga]

/-- Witness for C6: birth at julian day 2448982 (tz +5.5) against a
sunrise half a day later; the hypothesis holds and the theorem applies. -/
theorem C6_vara_witness :
    (compute_panchanga 0 0 2448982 5.5 2448982.5).vara_idx =
      (if (2448982 : ℚ) < 2448982.5 then spec_weekday (2448982 + 5.5 / 24 - 1)
        else spec_weekday (2448982 + 5.5 / 24)) ∧
    0 ≤ (compute_panchanga 0 0 2448982 5.5 2448982.5).vara_idx ∧
    (compute_panchanga 0 0 2448982 5.5 2448982.5).vara_idx < 7 ∧
    (compute_panchanga 0 0 2448982 5.5 2448982.5).vara_english =
      VARA_ENGLISH.getD
        (compute_panchanga 0 0 2448982 5.5 2448982.5).vara_idx.toNat emptyStr ∧
    VARA_ENGLISH = [("Sunday"), ("Monday"), ("Tuesday"), ("Wednesday"),
      ("Thursday"), ("Friday"), ("Saturday")] :=
  C6_vara 0 0 2448982 5.5 2448982.5 (by norm_num)

/-! ## House resolver (src/calculations/bhavas.py, `get_house_for_longitude`) -/

/-- The per-house membership test of the loop body of
`get_house_for_longitude`: standard interval when the cusp pair ascends,
wrap-around test otherwise. -/
def membBool (longitude : ℚ) (cusps : List ℚ) (i : ℕ) : Bool :=
  let cusp_start := cusps.getD i 0
  let cusp_end := cusps.getD ((i + 1) % 12) 0
  if cusp_start < cusp_end then
    decide (cusp_start ≤ longitude ∧ longitude < cusp_end)
  else
    decide (longitude ≥ cusp_start ∨ longitude < cusp_end)

/-- `get_house_for_longitude` from src/calculations/bhavas.py: first
matching house of the 12, else the equal-house fallback. -/
def get_house_for_longitude (longitude : ℚ) (cusps : List ℚ) : ℤ :=
  match (List.range 12).find? (fun i => membBool longitude cusps i) with
  | some i => (i : ℤ) + 1
  | none => pyint (pymod (longitude - cusps.getD 0 0) 360 / 30) + 1

theorem find_first {p : ℕ → Bool} {i : ℕ} : ∀ {l : List ℕ},
    i ∈ l → (∀ j ∈ l, p j = true → j = i) → p i = true →
    l.find? p = some i := by
  intro l
  induction l with
  | nil => intro hmem; cases hmem
  | cons a t ih =>
    intro hmem huniq hp
    by_cases ha : p a = true
    · have haa : a = i := huniq a (List.mem_cons_self a t) ha
      rw [List.find?_cons_of_pos _ ha, haa]
    · have hne : a ≠ i := fun h => ha (h ▸ hp)
      have hmem2 : i ∈ t := by
        rcases List.mem_cons.mp hmem with h | h
        · exact absurd h.symm hne
        · exact h
      rw [List.find?_cons_of_neg _ (by simpa using ha)]
      exact ih hmem2 (fun j hj hpj => huniq j (List.mem_cons_of_mem _ hj) hpj) hp

/-- C8: given 12 cusps, when exactly one of the 12 interval tests accepts
the longitude the resolver returns that house, and when none accepts it
returns the equal-house fallback from the first cusp. -/
theorem C8_house_for_longitude (longitude : ℚ) (cusps : List ℚ)
    (hlen : cusps.length = 12) :
    (∀ i, i < 12 → membBool longitude cusps i = true →
      (∀ j, j < 12 → j ≠ i → membBool longitude cusps j = false) →
      get_house_for_longitude longitude cusps = (i : ℤ) + 1) ∧
    ((∀ i, i < 12 → membBool longitude cusps i = false) →
      get_house_for_longitude longitude cusps =
        pyint (pymod (longitude - cusps.getD 0 0) 360 / 30) + 1) := by
  constructor
  · intro i hi hp huniq
    unfold get_house_for_longitude
    rw [find_first (List.mem_range.mpr hi) ?uniq hp]
    case uniq =>
      intro j hj hpj
      by_contra hne
      have := huniq j (List.mem_range.mp hj) hne
      rw [this] at hpj
      exact Bool.false_ne_true hpj
  · intro hnone
    unfold get_house_for_longitude
    rw [List.find?_eq_none.mpr ?none]
    case none =>
      intro j hj
      rw [hnone j (List.mem_range.mp hj)]
      exact Bool.false_ne_true

/-- Witness for C8: equal 30-degree cusps from Aries 0; the longitude 15
matches only the first house. -/
theorem C8_witness :
    (∀ i, i < 12 →
      membBool 15 [0, 30, 60, 90, 120, 150, 180, 210, 240, 270, 300, 330] i
        = true →
      (∀ j, j < 12 → j ≠ i →
        membBool 15 [0, 30, 60, 90, 120, 150, 180, 210, 240, 270, 300, 330] j
          = false) →
      get_house_for_longitude 15
        [0, 30, 60, 90, 120, 150, 180, 210, 240, 270, 300, 330] = (i : ℤ) + 1) ∧
    ((∀ i, i < 12 →
      membBool 15 [0, 30, 60, 90, 120, 150, 180, 210, 240, 270, 300, 330] i
        = false) →
      get_house_for_longitude 15
        [0, 30, 60, 90, 120, 150, 180, 210, 240, 270, 300, 330] =
        pyint (pymod
          (15 - [(0 : ℚ), 30, 60, 90, 120, 150, 180, 210, 240, 270, 300,
            330].getD 0 0) 360 / 30) + 1) :=
  C8_house_for_longitude 15
    [0, 30, 60, 90, 120, 150, 180, 210, 240, 270, 300, 330] (by decide)

/-! ## Ashtakavarga (src/calculations/ashtakavarga.py and
src/constants/ashtakavarga_tables.py) -/

/-- `ASHTAKAVARGA_PLANETS` from src/constants/ashtakavarga_tables.py. -/
def ASHTAKAVARGA_PLANETS : List String :=
  [("Sun"), ("Moon"), ("Mars"), ("Mercury"), ("Jupiter"), ("Venus"), ("Saturn")]

/-- `BINDU_TABLES` from src/constants/ashtakavarga_tables.py: per planet,
the list of (reference point, houses giving a bindu). -/
def BINDU_TABLES : String → List (String × List ℕ)
  | "Sun" =>
    [(("Sun"), [1, 2, 4, 7, 8, 9, 10, 11]),
     (("Moon"), [3, 6, 10, 11]),
     (("Mars"), [1, 2, 4, 7, 8, 9, 10, 11]),
     (("Mercury"), [3, 5, 6, 9, 10, 11, 12]),
     (("Jupiter"), [5, 6, 9, 11]),
     (("Venus"), [6, 7, 12]),
     (("Saturn"), [1, 2, 4, 7, 8, 9, 10, 11]),
     (("Lagna"), [3, 4, 6, 10, 11, 12])]
  | "Moon" =>
    [(("Sun"), [3, 6, 7, 8, 10, 11]),
     (("Moon"), [1, 3, 6, 7, 10, 11]),
     (("Mars"), [2, 3, 5, 6, 9, 10, 11]),
     (("Mercury"), [1, 3, 4, 5, 7, 8, 10, 11]),
     (("Jupiter"), [1, 4, 7, 8, 10, 11, 12]),
     (("Venus"), [3, 4, 5, 7, 9, 10, 11]),
     (("Saturn"), [3, 5, 6, 11]),
     (("Lagna"), [3, 6, 10, 11])]
  | "Mars" =>
    [(("Sun"), [3, 5, 6, 10, 11]),
     (("Moon"), [3, 6, 11]),
     (("Mars"), [1, 2, 4, 7, 8, 10, 11]),
     (("Mercury"), [3, 5, 6, 11]),
     (("Jupiter"), [6, 10, 11, 12]),
     (("Venus"), [6, 8, 11, 12]),
     (("Saturn"), [1, 4, 7, 8, 9, 10, 11]),
     (("Lagna"), [1, 3, 6, 10, 11])]
  | "Mercury" =>
    [(("Sun"), [5, 6, 9, 11, 12]),
     (("Moon"), [2, 4, 6, 8, 10, 11]),
     (("Mars"), [1, 2, 4, 7, 8, 9, 10, 11]),
     (("Mercury"), [1, 3, 5, 6, 9, 10, 11, 12]),
     (("Jupiter"), [6, 8, 11, 12]),
     (("Venus"), [1, 2, 3, 4, 5, 8, 9, 11]),
     (("Saturn"), [1, 2, 4, 7, 8, 9, 10, 11]),
     (("Lagna"), [1, 2, 4, 6, 8, 10, 11])]
  | "Jupiter" =>
    [(("Sun"), [1, 2, 3, 4, 7, 8, 9, 10, 11]),
     (("Moon"), [2, 5, 7, 9, 11]),
     (("Mars"), [1, 2, 4, 7, 8, 10, 11]),
     (("Mercury"), [1, 2, 4, 5, 6, 9, 10, 11]),
     (("Jupiter"), [1, 2, 3, 4, 7, 8, 10, 11]),
     (("Venus"), [2, 5, 6, 9, 10, 11]),
     (("Saturn"), [3, 5, 6, 12]),
     (("Lagna"), [1, 2, 4, 5, 6, 7, 9, 10, 11])]
  | "Venus" =>
    [(("Sun"), [8, 11, 12]),
     (("Moon"), [1, 2, 3, 4, 5, 8, 9, 11, 12]),
     (("Mars"), [3, 4, 6, 8, 9, 11, 12]),
     (("Mercury"), [3, 5, 6, 9, 11]),
     (("Jupiter"), [5, 8, 9, 10, 11]),
     (("Venus"), [1, 2, 3, 4, 5, 8, 9, 10, 11]),
     (("Saturn"), [3, 4, 5, 8, 9, 10, 11]),
     (("Lagna"), [1, 2, 3, 4, 5, 8, 9])]
  | "Saturn" =>
    [(("Sun"), [1, 2, 4, 7, 8, 10, 11]),
     (("Moon"), [3, 6, 11]),
     (("Mars"), [3, 5, 6, 10, 11, 12]),
     (("Mercury"), [6, 8, 9, 10, 11, 12]),
     (("Jupiter"), [5, 6, 11, 12]),
     (("Venus"), [6, 11, 12]),
     (("Saturn"), [3, 5, 6, 11]),
     (("Lagna"), [1, 3, 4, 6, 10, 11])]
  | _ => []

/-- Add one bindu at list index `i` (the `bindus[target_rashi - 1] += 1`
of the source). -/
def bump (l : List ℕ) (i : ℕ) : List ℕ := l.set i (l.getD i 0 + 1)

/-- The 0-based slot of the target rashi
`(ref_rashi - 1 + house - 1) % 12 + 1`. -/
def binduTarget (ref_rashi : ℤ) (house : ℕ) : ℕ :=
  ((ref_rashi - 1 + (house : ℤ) - 1) % 12).toNat

/-- The inner loop of `compute_bhinnashtakavarga`: mark one bindu for
every contributing house of one reference point. -/
def addHouses (v : List ℕ) (ref_rashi : ℤ) (houses : List ℕ) : List ℕ :=
  houses.foldl (fun acc h => bump acc (binduTarget ref_rashi h)) v

/-- The per-planet BAV vector of `compute_bhinnashtakavarga`. -/
def computeBAVvector (rashiPos : String → ℤ) (planet : String) : List ℕ :=
  (BINDU_TABLES planet).foldl
    (fun acc entry => addHouses acc (rashiPos entry.1) entry.2)
    (List.replicate 12 0)

/-- `compute_bhinnashtakavarga` from src/calculations/ashtakavarga.py;
`positions` maps a planet name to its longitude. -/
def compute_bhinnashtakavarga (positions : String → ℚ)
    (ascendant_longitude : ℚ) : List (String × List ℕ) :=
  let rashiPos : String → ℤ := fun name =>
    if name = ("Lagna") then longitude_to_rashi ascendant_longitude
    else longitude_to_rashi (positions name)
  ASHTAKAVARGA_PLANETS.map (fun planet => (planet, computeBAVvector rashiPos planet))

/-- `compute_sarvashtakavarga` from src/calculations/ashtakavarga.py:
elementwise sum of the seven BAV vectors. -/
def compute_sarvashtakavarga (bav : List (String × List ℕ)) : List ℕ :=
  bav.foldl (fun sav pb => List.zipWith (· + ·) sav pb.2) (List.replicate 12 0)

theorem bump_length (l : List ℕ) (i : ℕ) : (bump l i).length = l.length := by
  simp [bump]

theorem bump_sum : ∀ {l : List ℕ} {i : ℕ}, i < l.length →
    (bump l i).sum = l.sum + 1 := by
  intro l
  induction l with
  | nil => intro i h; simp at h
  | cons a t ih =>
    intro i h
    cases i with
    | zero =>
      show ((a + 1) :: t).sum = (a :: t).sum + 1
      simp [List.sum_cons]
      omega
    | succ n =>
      have hn : n < t.length := Nat.lt_of_succ_lt_succ h
      show (a :: bump t n).sum = (a :: t).sum + 1
      simp only [List.sum_cons, ih hn]
      omega

theorem binduTarget_lt (r : ℤ) (h : ℕ) : binduTarget r h < 12 := by
  unfold binduTarget
  have h1 : 0 ≤ (r - 1 + (h : ℤ) - 1) % 12 := Int.emod_nonneg _ (by norm_num)
  have h2 : (r - 1 + (h : ℤ) - 1) % 12 < 12 := Int.emod_lt_of_pos _ (by norm_num)
  omega

theorem addHouses_length : ∀ (hs : List ℕ) (v : List ℕ) (r : ℤ),
    (addHouses v r hs).length = v.length := by
  intro hs
  induction hs with
  | nil => intro v r; rfl
  | cons h t ih =>
    intro v r
    show (addHouses (bump v (binduTarget r h)) r t).length = v.length
    rw [ih, bump_length]

theorem addHouses_sum : ∀ (hs : List ℕ) {v : List ℕ}, v.length = 12 → ∀ (r : ℤ),
    (addHouses v r hs).sum = v.sum + hs.length := by
  intro hs
  induction hs with
  | nil => intro v hv r; simp [addHouses]
  | cons h t ih =>
    intro v hv r
    have hb : (bump v (binduTarget r h)).length = 12 := by
      rw [bump_length, hv]
    show (addHouses (bump v (binduTarget r h)) r t).sum = v.sum + (h :: t).length
    rw [ih hb, bump_sum (by rw [hv]; exact binduTarget_lt r h)]
    simp [List.length_cons]
    omega

theorem bav_fold_length : ∀ (entries : List (String × List ℕ)) (v : List ℕ)
    (rp : String → ℤ),
    (entries.foldl (fun acc e => addHouses acc (rp e.1) e.2) v).length
      = v.length := by
  intro entries
  induction entries with
  | nil => intro v rp; rfl
  | cons e t ih =>
    intro v rp
    show (t.foldl _ (addHouses v (rp e.1) e.2)).length = v.length
    rw [ih, addHouses_length]

theorem bav_fold_sum : ∀ (entries : List (String × List ℕ)) {v : List ℕ},
    v.length = 12 → ∀ (rp : String → ℤ),
    (entries.foldl (fun acc e => addHouses acc (rp e.1) e.2) v).sum
      = v.sum + (entries.map (fun e => e.2.length)).sum := by
  intro entries
  induction entries with
  | nil => intro v hv rp; simp
  | cons e t ih =>
    intro v hv rp
    have ha : (addHouses v (rp e.1) e.2).length = 12 := by
      rw [addHouses_length, hv]
    show (t.foldl _ (addHouses v (rp e.1) e.2)).sum = _
    rw [ih ha, addHouses_sum e.2 hv]
    simp [List.map_cons, List.sum_cons]
    omega

/-- The BAV total of a planet is the total entry count of its table,
whatever the reference positions are. -/
theorem computeBAV_sum (rp : String → ℤ) (planet : String) :
    (computeBAVvector rp planet).sum
      = ((BINDU_TABLES planet).map (fun e => e.2.length)).sum := by
  unfold computeBAVvector
  rw [bav_fold_sum (BINDU_TABLES planet) (by simp) rp]
  simp

theorem computeBAV_length (rp : String → ℤ) (planet : String) :
    (computeBAVvector rp planet).length = 12 := by
  unfold computeBAVvector
  rw [bav_fold_length]
  simp

theorem zipWith_add_sum : ∀ {a b : List ℕ}, a.length = b.length →
    (List.zipWith (· + ·) a b).sum = a.sum + b.sum := by
  intro a
  induction a with
  | nil =>
    intro b h
    have : b = [] := List.eq_nil_of_length_eq_zero h.symm
    simp [this]
  | cons x t ih =>
    intro b h
    cases b with
    | nil => simp at h
    | cons y u =>
      have hl : t.length = u.length := by simpa using h
      simp only [List.zipWith_cons_cons, List.sum_cons, ih hl]
      omega

theorem sav_fold_sum : ∀ (bav : List (String × List ℕ)) {v : List ℕ},
    v.length = 12 → (∀ pb ∈ bav, pb.2.length = 12) →
    (bav.foldl (fun sav pb => List.zipWith (· + ·) sav pb.2) v).sum
      = v.sum + (bav.map (fun pb => pb.2.sum)).sum := by
  intro bav
  induction bav with
  | nil => intro v hv hall; simp
  | cons pb t ih =>
    intro v hv hall
    have hpb : pb.2.length = 12 := hall pb (List.mem_cons_self pb t)
    have hzl : (List.zipWith (· + ·) v pb.2).length = 12 := by
      rw [List.length_zipWith, hv, hpb]
      simp
    show (t.foldl _ (List.zipWith (· + ·) v pb.2)).sum = _
    rw [ih hzl (fun q hq => hall q (List.mem_cons_of_mem _ hq)),
      zipWith_add_sum (by rw [hv, hpb])]
    simp [List.map_cons, List.sum_cons]
    omega

/-- C1: for every chart the seven BAV totals are the table constants
Sun 48, Moon 49, Mars 39, Mercury 54, Jupiter 56, Venus 52, Saturn 39,
and the SAV entries sum to 337. -/
theorem C1_ashtakavarga_totals (positions : String → ℚ) (asc : ℚ) :
    ((compute_bhinnashtakavarga positions asc).map
        (fun pb => (pb.1, pb.2.sum)) =
      [(("Sun"), 48), (("Moon"), 49), (("Mars"), 39), (("Mercury"), 54),
       (("Jupiter"), 56), (("Venus"), 52), (("Saturn"), 39)]) ∧
    (compute_sarvashtakavarga (compute_bhinnashtakavarga positions asc)).sum
      = 337 := by
  constructor
  · simp only [compute_bhinnashtakavarga, ASHTAKAVARGA_PLANETS, List.map_cons,
      List.map_nil, computeBAV_sum]
    norm_num [BINDU_TABLES]
  · have hlens : ∀ pb ∈ compute_bhinnashtakavarga positions asc,
        pb.2.length = 12 := by
      intro pb hpb
      simp only [compute_bhinnashtakavarga, ASHTAKAVARGA_PLANETS,
        List.map_cons, List.map_nil, List.mem_cons, List.not_mem_nil,
        or_false] at hpb
      rcases hpb with h | h | h | h | h | h | h <;>
        simp [h, computeBAV_length]
    have hrepl : (List.replicate 12 (0 : ℕ)).length = 12 := by simp
    rw [compute_sarvashtakavarga, sav_fold_sum _ hrepl hlens]
    simp only [compute_bhinnashtakavarga, ASHTAKAVARGA_PLANETS, List.map_cons,
      List.map_nil, computeBAV_sum]
    norm_num [BINDU_TABLES]

/-! ## Vimshottari Dasha (src/calculations/dasha.py and
src/constants/dashas.py) -/

/-- `VIMSHOTTARI_TOTAL_YEARS` from src/constants/dashas.py. -/
def VIMSHOTTARI_TOTAL_YEARS : ℚ := 120

/-- `VIMSHOTTARI_SEQUENCE` from src/constants/dashas.py. -/
def VIMSHOTTARI_SEQUENCE : List (String × ℚ) :=
  [(("Ketu"), 7), (("Venus"), 20), (("Sun"), 6), (("Moon"), 10), (("Mars"), 7),
   (("Rahu"), 18), (("Jupiter"), 16), (("Saturn"), 19), (("Mercury"), 17)]

/-- `DASHA_DURATIONS` from src/constants/dashas.py (dict lookup on the
sequence). -/
def DASHA_DURATIONS (name : String) : ℚ :=
  (VIMSHOTTARI_SEQUENCE.lookup name).getD 0

/-- `DASHA_ORDER` from src/constants/dashas.py. -/
def DASHA_ORDER : List String := VIMSHOTTARI_SEQUENCE.map Prod.fst

theorem DASHA_ORDER_eq :
    DASHA_ORDER = [("Ketu"), ("Venus"), ("Sun"), ("Moon"), ("Mars"),
      ("Rahu"), ("Jupiter"), ("Saturn"), ("Mercury")] := rfl

/-- `_years_to_days` from src/calculations/dasha.py. -/
def _years_to_days (years : ℚ) : ℚ := years * 365.25

/-- `_get_dasha_start_index` from src/calculations/dasha.py. -/
def _get_dasha_start_index (moon_longitude : ℚ) : ℕ :=
  DASHA_ORDER.indexOf
    (NAKSHATRA_LORDS.getD (longitude_to_nakshatra moon_longitude - 1).toNat
      emptyStr)

/-- Models Python `round(x, 4)` (round to the nearest multiple of 1/10^4;
the claims only use that the value is within 1/10^4 of `x`, so the tie
rule is immaterial). -/
def round4 (x : ℚ) : ℚ := ((round (x * 10000) : ℤ) : ℚ) / 10000

/-- One dasha period dict of the source: lord, start and end instants
(as rational day counts), the rounded `duration_years` field, and the
optional child list (empty when absent). -/
inductive DashaPeriod : Type where
  | mk (lord : String) (start stop duration_years : ℚ)
      (children : List DashaPeriod)

def DashaPeriod.lord : DashaPeriod → String
  | .mk l _ _ _ _ => l

def DashaPeriod.start : DashaPeriod → ℚ
  | .mk _ s _ _ _ => s

def DashaPeriod.stop : DashaPeriod → ℚ
  | .mk _ _ e _ _ => e

def DashaPeriod.duration_years : DashaPeriod → ℚ
  | .mk _ _ _ d _ => d

def DashaPeriod.children : DashaPeriod → List DashaPeriod
  | .mk _ _ _ _ c => c

/-- The exact duration of a period in years, recovered from its
endpoints (the stored `duration_years` field is the rounded copy). -/
def rawYears (p : DashaPeriod) : ℚ := (p.stop - p.start) / 365.25

def sumRawYears (l : List DashaPeriod) : ℚ := (l.map rawYears).sum

/-- The loop of `_compute_sub_periods` from src/calculations/dasha.py,
recursing over the remaining cycle offsets; children are attached when
`remaining_levels >= 2`, computed one level shallower starting from the
sub-lord itself. -/
def subLoop : ℕ → ℕ → ℚ → List ℕ → ℚ → List DashaPeriod
  | _, _, _, [], _ => []
  | remaining, start_idx, maha_dur, o :: rest, current =>
    let idx := (start_idx + o) % 9
    let sub_lord := DASHA_ORDER.getD idx emptyStr
    let sub_dur := maha_dur * DASHA_DURATIONS sub_lord / VIMSHOTTARI_TOTAL_YEARS
    let endDate := current + _years_to_days sub_dur
    let children := if _h : 2 ≤ remaining then
        subLoop (remaining - 1) (DASHA_ORDER.indexOf sub_lord) sub_dur
          (List.range 9) current
      else []
    DashaPeriod.mk sub_lord current endDate (round4 sub_dur) children
      :: subLoop remaining start_idx maha_dur rest endDate
termination_by remaining _ _ offs _ => (remaining, offs.length)
decreasing_by
  · apply Prod.Lex.left
    omega
  · apply Prod.Lex.right
    simp

/-- `_compute_sub_periods` from src/calculations/dasha.py. -/
def _compute_sub_periods (maha_lord : String) (start_date : ℚ)
    (maha_duration_years : ℚ) (remaining_levels : ℕ) : List DashaPeriod :=
  subLoop remaining_levels (DASHA_ORDER.indexOf maha_lord)
    maha_duration_years (List.range 9) start_date

/-- The top-level loop of `compute_mahadasha`: the offset-0 period takes
the balance duration, later ones their full durations; antardashas are
attached when `levels >= 2`. -/
def mahaLoop (levels : ℕ) (start_idx : ℕ) (first_balance : ℚ) :
    List ℕ → ℚ → List DashaPeriod
  | [], _ => []
  | o :: rest, current =>
    let idx := (start_idx + o) % 9
    let lord := DASHA_ORDER.getD idx emptyStr
    let dur := if o = 0 then first_balance else DASHA_DURATIONS lord
    let endDate := current + _years_to_days dur
    let children := if 2 ≤ levels then
        _compute_sub_periods lord current dur (levels - 1)
      else []
    DashaPeriod.mk lord current endDate (round4 dur) children
      :: mahaLoop levels start_idx first_balance rest endDate

/-- `compute_mahadasha` from src/calculations/dasha.py; the birth
datetime is a rational day count. -/
def compute_mahadasha (moon_longitude : ℚ) (birth : ℚ) (levels : ℕ) :
    List DashaPeriod :=
  let fraction_elapsed := nakshatra_traversed_fraction moon_longitude
  let start_idx := _get_dasha_start_index moon_longitude
  let first_lord := DASHA_ORDER.getD start_idx emptyStr
  let full_duration_years := DASHA_DURATIONS first_lord
  let first_balance_years := full_duration_years * (1 - fraction_elapsed)
  mahaLoop levels start_idx first_balance_years (List.range 9) birth

/-- Sibling contiguity from a given instant: the first period starts
there and every period ends where its successor starts. -/
def chainedFrom : ℚ → List DashaPeriod → Bool
  | _, [] => true
  | current, p :: rest => (p.start == current) && chainedFrom p.stop rest

mutual

/-- Tree well-formedness of one period: its children (when present) sum
to its own exact duration, chain from its start, and are themselves
well-formed. -/
def wfPeriod : DashaPeriod → Bool
  | .mk _ s e _ cs =>
    cs.isEmpty ||
      ((sumRawYears cs == (e - s) / 365.25) && chainedFrom s cs && wfForest cs)

def wfForest : List DashaPeriod → Bool
  | [] => true
  | p :: rest => wfPeriod p && wfForest rest

end

theorem rawYears_mk (l : String) (cur d r : ℚ) (cs : List DashaPeriod) :
    rawYears (DashaPeriod.mk l cur (cur + _years_to_days d) r cs) = d := by
  unfold rawYears _years_to_days DashaPeriod.start DashaPeriod.stop
  field_simp

theorem wfPeriod_mk_nil (l : String) (a b c : ℚ) :
    wfPeriod (DashaPeriod.mk l a b c []) = true := rfl

theorem wfPeriod_mk_of (l : String) (cur d r : ℚ) (cs : List DashaPeriod)
    (hsum : sumRawYears cs = d) (hch : chainedFrom cur cs = true)
    (hwf : wfForest cs = true) :
    wfPeriod (DashaPeriod.mk l cur (cur + _years_to_days d) r cs) = true := by
  rw [wfPeriod]
  have hd : (cur + _years_to_days d - cur) / (365.25 : ℚ) = d := by
    unfold _years_to_days
    field_simp
  rw [hd, hsum]
  simp [hch, hwf]

theorem subLoop_chained : ∀ (offs : List ℕ) (r s : ℕ) (D cur : ℚ),
    chainedFrom cur (subLoop r s D offs cur) = true := by
  intro offs
  induction offs with
  | nil => intro r s D cur; simp [subLoop, chainedFrom]
  | cons o rest ih =>
    intro r s D cur
    simp only [subLoop, chainedFrom, DashaPeriod.start, DashaPeriod.stop]
    rw [ih]
    simp

/-- The lord at a cyclic index of the Vimshottari order. -/
def dashaLordAt (k : ℕ) : String := DASHA_ORDER.getD k emptyStr

/-- The full years of the lord at a cyclic index. -/
def dashaDurAt (k : ℕ) : ℚ := DASHA_DURATIONS (dashaLordAt k)

theorem dashaDurAt_0 : dashaDurAt 0 = 7 := rfl

theorem dashaDurAt_1 : dashaDurAt 1 = 20 := rfl

theorem dashaDurAt_2 : dashaDurAt 2 = 6 := rfl

theorem dashaDurAt_3 : dashaDurAt 3 = 10 := rfl

theorem dashaDurAt_4 : dashaDurAt 4 = 7 := rfl

theorem dashaDurAt_5 : dashaDurAt 5 = 18 := rfl

theorem dashaDurAt_6 : dashaDurAt 6 = 16 := rfl

theorem dashaDurAt_7 : dashaDurAt 7 = 19 := rfl

theorem dashaDurAt_8 : dashaDurAt 8 = 17 := rfl

theorem subLoop_map_char : ∀ (offs : List ℕ) (r s : ℕ) (D cur : ℚ),
    (subLoop r s D offs cur).map (fun p => (p.lord, rawYears p)) =
      offs.map (fun o =>
        (dashaLordAt ((s + o) % 9),
         D * dashaDurAt ((s + o) % 9) / 120)) := by
  intro offs
  induction offs with
  | nil => intro r s D cur; simp [subLoop]
  | cons o rest ih =>
    intro r s D cur
    simp only [subLoop, List.map_cons]
    rw [ih]
    congr 1
    simp [DashaPeriod.lord, rawYears_mk, VIMSHOTTARI_TOTAL_YEARS,
      dashaLordAt, dashaDurAt, DASHA_DURATIONS]

theorem dur_cycle_sum (s : ℕ) :
    ((List.range 9).map (fun o => dashaDurAt ((s + o) % 9))).sum = 120 := by
  obtain ⟨t, ht, hmod⟩ : ∃ t, t < 9 ∧ ∀ o, o < 9 → (s + o) % 9 = (t + o) % 9 :=
    ⟨s % 9, Nat.mod_lt _ (by norm_num), fun o ho => by omega⟩
  rw [show List.range 9 = [0, 1, 2, 3, 4, 5, 6, 7, 8] from rfl]
  simp only [List.map_cons, List.map_nil, List.sum_cons, List.sum_nil]
  rw [hmod 0 (by norm_num), hmod 1 (by norm_num), hmod 2 (by norm_num),
    hmod 3 (by norm_num), hmod 4 (by norm_num), hmod 5 (by norm_num),
    hmod 6 (by norm_num), hmod 7 (by norm_num), hmod 8 (by norm_num)]
  interval_cases t <;>
    norm_num [dashaDurAt_0, dashaDurAt_1, dashaDurAt_2, dashaDurAt_3,
      dashaDurAt_4, dashaDurAt_5, dashaDurAt_6, dashaDurAt_7, dashaDurAt_8]

theorem subLoop_raw_map (r s : ℕ) (D cur : ℚ) (offs : List ℕ) :
    (subLoop r s D offs cur).map rawYears =
      offs.map (fun o => D * dashaDurAt ((s + o) % 9) / 120) := by
  have h2 := congrArg (List.map Prod.snd) (subLoop_map_char offs r s D cur)
  rw [List.map_map, List.map_map] at h2
  exact h2

theorem subLoop_sum (r s : ℕ) (D cur : ℚ) :
    sumRawYears (subLoop r s D (List.range 9) cur) = D := by
  unfold sumRawYears
  rw [subLoop_raw_map]
  have h4 : (List.range 9).map (fun o => D * dashaDurAt ((s + o) % 9) / 120)
      = (List.range 9).map (fun o => (D / 120) * dashaDurAt ((s + o) % 9)) := by
    exact List.map_congr_left (fun o _ => by ring)
  rw [h4, List.sum_map_mul_left, dur_cycle_sum]
  ring

theorem subLoop_length (r s : ℕ) (D cur : ℚ) (offs : List ℕ) :
    (subLoop r s D offs cur).length = offs.length := by
  have h := congrArg List.length (subLoop_map_char offs r s D cur)
  simpa using h

theorem subLoop_wf : ∀ (r : ℕ) (offs : List ℕ) (s : ℕ) (D cur : ℚ),
    wfForest (subLoop r s D offs cur) = true := by
  intro r
  induction r with
  | zero =>
    intro offs
    induction offs with
    | nil => intro s D cur; simp [subLoop, wfForest]
    | cons o rest ih =>
      intro s D cur
      simp only [subLoop]
      rw [dif_neg (by omega)]
      rw [wfForest, ih s D _, Bool.and_true]
      exact wfPeriod_mk_nil _ _ _ _
  | succ n ihr =>
    intro offs
    induction offs with
    | nil => intro s D cur; simp [subLoop, wfForest]
    | cons o rest iho =>
      intro s D cur
      simp only [subLoop]
      by_cases h2 : 2 ≤ n + 1
      · rw [dif_pos h2]
        rw [wfForest, iho s D _, Bool.and_true]
        simp only [Nat.add_sub_cancel]
        exact wfPeriod_mk_of _ _ _ _ _ (subLoop_sum _ _ _ _)
          (subLoop_chained _ _ _ _ _) (ihr _ _ _ _)
      · rw [dif_neg h2]
        rw [wfForest, iho s D _, Bool.and_true]
        exact wfPeriod_mk_nil _ _ _ _

theorem mahaLoop_chained : ∀ (offs : List ℕ) (lv s : ℕ) (fb cur : ℚ),
    chainedFrom cur (mahaLoop lv s fb offs cur) = true := by
  intro offs
  induction offs with
  | nil => intro lv s fb cur; rfl
  | cons o rest ih =>
    intro lv s fb cur
    simp only [mahaLoop, chainedFrom, DashaPeriod.start, DashaPeriod.stop]
    rw [ih]
    simp

theorem mahaLoop_map_char : ∀ (offs : List ℕ) (lv s : ℕ) (fb cur : ℚ),
    (mahaLoop lv s fb offs cur).map (fun p => (p.lord, rawYears p)) =
      offs.map (fun o =>
        (dashaLordAt ((s + o) % 9),
         if o = 0 then fb else dashaDurAt ((s + o) % 9))) := by
  intro offs
  induction offs with
  | nil => intro lv s fb cur; rfl
  | cons o rest ih =>
    intro lv s fb cur
    simp only [mahaLoop, List.map_cons]
    rw [ih]
    congr 1
    simp [DashaPeriod.lord, rawYears_mk, dashaLordAt, dashaDurAt,
      DASHA_DURATIONS]

theorem mahaLoop_wf : ∀ (offs : List ℕ) (lv s : ℕ) (fb cur : ℚ),
    wfForest (mahaLoop lv s fb offs cur) = true := by
  intro offs
  induction offs with
  | nil => intro lv s fb cur; rfl
  | cons o rest ih =>
    intro lv s fb cur
    simp only [mahaLoop]
    by_cases h2 : 2 ≤ lv
    · rw [if_pos h2]
      rw [wfForest, ih lv s fb _, Bool.and_true]
      exact wfPeriod_mk_of _ _ _ _ _ (subLoop_sum _ _ _ _)
        (subLoop_chained _ _ _ _ _) (subLoop_wf _ _ _ _ _)
    · rw [if_neg h2]
      rw [wfForest, ih lv s fb _, Bool.and_true]
      exact wfPeriod_mk_nil _ _ _ _

/-- C4: at every nesting level of the dasha tree, each period's children
(when present) sum exactly to the parent's duration and chain from its
start, and sibling periods are time-contiguous; the top level chains
from the birth instant. -/
theorem C4_dasha_children_sums_and_contiguity (moon birth : ℚ) (levels : ℕ) :
    chainedFrom birth (compute_mahadasha moon birth levels) = true ∧
    wfForest (compute_mahadasha moon birth levels) = true :=
  ⟨mahaLoop_chained _ _ _ _ _, mahaLoop_wf _ _ _ _ _⟩

/-- C5: the sub-period generator yields exactly 9 sub-periods cycling
through the Vimshottari order starting from the parent lord itself, the
i-th one lasting the parent duration times the sub-lord's years over 120,
chained end-to-start from the parent's start. -/
theorem C5_sub_period_generator (L : String) (start D : ℚ) (remaining : ℕ)
    (hL : L ∈ DASHA_ORDER) :
    (_compute_sub_periods L start D remaining).length = 9 ∧
    ((_compute_sub_periods L start D remaining).map
        (fun p => (p.lord, rawYears p)) =
      (List.range 9).map (fun o =>
        (dashaLordAt ((DASHA_ORDER.indexOf L + o) % 9),
         D * dashaDurAt ((DASHA_ORDER.indexOf L + o) % 9) / 120))) ∧
    ((_compute_sub_periods L start D remaining).head?.map DashaPeriod.lord
      = some L) ∧
    chainedFrom start (_compute_sub_periods L start D remaining) = true := by
  have hchar := subLoop_map_char (List.range 9) remaining
    (DASHA_ORDER.indexOf L) D start
  have hidx : DASHA_ORDER.indexOf L < 9 := by
    have h := List.indexOf_lt_length.mpr hL
    simpa using h
  have hgd : DASHA_ORDER.getD (DASHA_ORDER.indexOf L) emptyStr = L := by
    rw [List.getD_eq_getElem DASHA_ORDER emptyStr (by simpa using hidx)]
    exact List.getElem_indexOf (by simpa using hidx)
  refine ⟨?_, hchar, ?_, subLoop_chained _ _ _ _ _⟩
  · have h := congrArg List.length hchar
    simpa using h
  · show (subLoop remaining (DASHA_ORDER.indexOf L) D (List.range 9)
      start).head?.map DashaPeriod.lord = some L
    rw [show List.range 9 = 0 :: [1, 2, 3, 4, 5, 6, 7, 8] from rfl]
    simp only [subLoop, List.head?_cons, Option.map_some', DashaPeriod.lord]
    rw [show (List.indexOf L DASHA_ORDER + 0) % 9 = List.indexOf L DASHA_ORDER
      from by omega]
    rw [hgd]

/-- Witness for C5 at the parent lord Ketu, start 0, duration 120 years,
one level. -/
theorem C5_witness :
    (_compute_sub_periods ("Ketu") 0 120 1).length = 9 ∧
    ((_compute_sub_periods ("Ketu") 0 120 1).map
        (fun p => (p.lord, rawYears p)) =
      (List.range 9).map (fun o =>
        (dashaLordAt ((DASHA_ORDER.indexOf ("Ketu") + o) % 9),
         120 * dashaDurAt ((DASHA_ORDER.indexOf ("Ketu") + o) % 9) / 120))) ∧
    ((_compute_sub_periods ("Ketu") 0 120 1).head?.map DashaPeriod.lord
      = some ("Ketu")) ∧
    chainedFrom 0 (_compute_sub_periods ("Ketu") 0 120 1) = true :=
  C5_sub_period_generator ("Ketu") 0 120 1 (by decide)

theorem nak_lord_facts : ∀ k : ℕ, k < 27 →
    DASHA_ORDER.indexOf (NAKSHATRA_LORDS.getD k emptyStr) < 9 ∧
    6 ≤ DASHA_DURATIONS (DASHA_ORDER.getD
      (DASHA_ORDER.indexOf (NAKSHATRA_LORDS.getD k emptyStr)) emptyStr) ∧
    DASHA_DURATIONS (DASHA_ORDER.getD
      (DASHA_ORDER.indexOf (NAKSHATRA_LORDS.getD k emptyStr)) emptyStr)
      ≤ 20 := by
  decide

/-- C3: for a moon longitude in `[0, 360)` the mahadasha list has exactly
9 periods; the first has the balance duration (starting lord's full years
times one minus the traversed nakshatra fraction), the rest full
durations in cyclic order; and the total duration is in `(100, 120]`. -/
theorem C3_mahadasha_periods (moon birth : ℚ) (levels : ℕ)
    (h0 : 0 ≤ moon) (h1 : moon < 360) :
    (compute_mahadasha moon birth levels).length = 9 ∧
    ((compute_mahadasha moon birth levels).map
        (fun p => (p.lord, rawYears p)) =
      (List.range 9).map (fun o =>
        (dashaLordAt ((_get_dasha_start_index moon + o) % 9),
         if o = 0 then
           DASHA_DURATIONS
               (DASHA_ORDER.getD (_get_dasha_start_index moon) emptyStr)
             * (1 - nakshatra_traversed_fraction moon)
         else dashaDurAt ((_get_dasha_start_index moon + o) % 9)))) ∧
    100 < sumRawYears (compute_mahadasha moon birth levels) ∧
    sumRawYears (compute_mahadasha moon birth levels) ≤ 120 := by
  have hchar : (compute_mahadasha moon birth levels).map
      (fun p => (p.lord, rawYears p)) =
      (List.range 9).map (fun o =>
        (dashaLordAt ((_get_dasha_start_index moon + o) % 9),
         if o = 0 then
           DASHA_DURATIONS
               (DASHA_ORDER.getD (_get_dasha_start_index moon) emptyStr)
             * (1 - nakshatra_traversed_fraction moon)
         else dashaDurAt ((_get_dasha_start_index moon + o) % 9))) :=
    mahaLoop_map_char _ _ _ _ _
  -- index and duration facts for the starting lord
  have hkz : 0 ≤ longitude_to_nakshatra moon - 1 ∧
      longitude_to_nakshatra moon - 1 < 27 := by
    unfold longitude_to_nakshatra
    have ha := Int.emod_nonneg (pyint (moon / NAKSHATRA_SPAN))
      (by norm_num : (27:ℤ) ≠ 0)
    have hb := Int.emod_lt_of_pos (pyint (moon / NAKSHATRA_SPAN))
      (by norm_num : (0:ℤ) < 27)
    omega
  have hklt : (longitude_to_nakshatra moon - 1).toNat < 27 := by omega
  have hfacts := nak_lord_facts (longitude_to_nakshatra moon - 1).toNat hklt
  have hslt : _get_dasha_start_index moon < 9 := hfacts.1
  have hdlo : 6 ≤ DASHA_DURATIONS
      (DASHA_ORDER.getD (_get_dasha_start_index moon) emptyStr) := hfacts.2.1
  have hdhi : DASHA_DURATIONS
      (DASHA_ORDER.getD (_get_dasha_start_index moon) emptyStr) ≤ 20 :=
    hfacts.2.2
  -- the traversed fraction lies in [0, 1)
  have hsp : (0:ℚ) < NAKSHATRA_SPAN := by norm_num [NAKSHATRA_SPAN]
  have hf0 : (0:ℤ) ≤ ⌊moon / NAKSHATRA_SPAN⌋ :=
    Int.le_floor.mpr (by positivity)
  have hf27 : ⌊moon / NAKSHATRA_SPAN⌋ < 27 := Int.floor_lt.mpr (by
    rw [div_lt_iff₀ hsp]
    have h360 : (360:ℚ) < 27 * NAKSHATRA_SPAN := by norm_num [NAKSHATRA_SPAN]
    push_cast
    linarith)
  have hnak : longitude_to_nakshatra moon = ⌊moon / NAKSHATRA_SPAN⌋ + 1 := by
    unfold longitude_to_nakshatra
    rw [pyint_of_nonneg (by positivity), Int.emod_eq_of_lt hf0 hf27]
  have hfr : nakshatra_traversed_fraction moon =
      (moon - (⌊moon / NAKSHATRA_SPAN⌋ : ℚ) * NAKSHATRA_SPAN)
        / NAKSHATRA_SPAN := by
    unfold nakshatra_traversed_fraction
    rw [hnak]
    push_cast
    ring_nf
  have hfle : (⌊moon / NAKSHATRA_SPAN⌋ : ℚ) * NAKSHATRA_SPAN ≤ moon := by
    have h := Int.floor_le (moon / NAKSHATRA_SPAN)
    have h2 := mul_le_mul_of_nonneg_right h hsp.le
    rwa [div_mul_cancel₀ moon hsp.ne'] at h2
  have hflt : moon < ((⌊moon / NAKSHATRA_SPAN⌋ : ℚ) + 1) * NAKSHATRA_SPAN := by
    have h := Int.lt_floor_add_one (moon / NAKSHATRA_SPAN)
    have h2 := mul_lt_mul_of_pos_right h hsp
    rwa [div_mul_cancel₀ moon hsp.ne'] at h2
  have hfrac0 : 0 ≤ nakshatra_traversed_fraction moon := by
    rw [hfr]
    apply div_nonneg _ hsp.le
    linarith
  have hfrac1 : nakshatra_traversed_fraction moon < 1 := by
    rw [hfr, div_lt_one hsp]
    nlinarith
  -- the total duration
  have hraw2 : (compute_mahadasha moon birth levels).map rawYears =
      (List.range 9).map (fun o =>
        if o = 0 then
          DASHA_DURATIONS
              (DASHA_ORDER.getD (_get_dasha_start_index moon) emptyStr)
            * (1 - nakshatra_traversed_fraction moon)
        else dashaDurAt ((_get_dasha_start_index moon + o) % 9)) := by
    have h2 := congrArg (List.map Prod.snd) hchar
    rw [List.map_map, List.map_map] at h2
    exact h2
  have hcy := dur_cycle_sum (_get_dasha_start_index moon)
  rw [show List.range 9 = [0, 1, 2, 3, 4, 5, 6, 7, 8] from rfl] at hcy
  simp only [List.map_cons, List.map_nil, List.sum_cons, List.sum_nil] at hcy
  rw [show (_get_dasha_start_index moon + 0) % 9 = _get_dasha_start_index moon
    by omega] at hcy
  have hdd : dashaDurAt (_get_dasha_start_index moon) =
      DASHA_DURATIONS
        (DASHA_ORDER.getD (_get_dasha_start_index moon) emptyStr) := rfl
  rw [hdd] at hcy
  have hsum : sumRawYears (compute_mahadasha moon birth levels) =
      DASHA_DURATIONS
          (DASHA_ORDER.getD (_get_dasha_start_index moon) emptyStr)
        * (1 - nakshatra_traversed_fraction moon)
      + (120 - DASHA_DURATIONS
          (DASHA_ORDER.getD (_get_dasha_start_index moon) emptyStr)) := by
    unfold sumRawYears
    rw [hraw2]
    rw [show List.range 9 = [0, 1, 2, 3, 4, 5, 6, 7, 8] from rfl]
    simp only [List.map_cons, List.map_nil, List.sum_cons, List.sum_nil]
    norm_num only
    simp only [if_true, if_false]
    linarith
  refine ⟨?_, hchar, ?_, ?_⟩
  · have h := congrArg List.length hchar
    simpa using h
  · rw [hsum]
    nlinarith
  · rw [hsum]
    nlinarith

/-- Witness for C3 at moon longitude 100 degrees, birth instant 0,
one level. -/
theorem C3_witness :
    (compute_mahadasha 100 0 1).length = 9 ∧
    ((compute_mahadasha 100 0 1).map (fun p => (p.lord, rawYears p)) =
      (List.range 9).map (fun o =>
        (dashaLordAt ((_get_dasha_start_index 100 + o) % 9),
         if o = 0 then
           DASHA_DURATIONS
               (DASHA_ORDER.getD (_get_dasha_start_index 100) emptyStr)
             * (1 - nakshatra_traversed_fraction 100)
         else dashaDurAt ((_get_dasha_start_index 100 + o) % 9)))) ∧
    100 < sumRawYears (compute_mahadasha 100 0 1) ∧
    sumRawYears (compute_mahadasha 100 0 1) ≤ 120 :=
  C3_mahadasha_periods 100 0 1 (by norm_num) (by norm_num)

/-! ## Divisional chart dispatcher (src/calculations/divisional.py) -/

/-- `RASHI_NAMES` from src/constants/rashis.py (index 0 = rashi 1). -/
def RASHI_NAMES : List String :=
  [("Mesha"), ("Vrishabha"), ("Mithuna"), ("Karka"), ("Simha"), ("Kanya"),
   ("Tula"), ("Vrischika"), ("Dhanu"), ("Makara"), ("Kumbha"), ("Meena")]

/-- `GRAHA_NAMES` from src/constants/grahas.py. -/
def GRAHA_NAMES : List String :=
  [("Sun"), ("Moon"), ("Mars"), ("Mercury"), ("Jupiter"),
   ("Venus"), ("Saturn"), ("Rahu"), ("Ketu")]

/-- `_d1_sign` from src/calculations/divisional.py. -/
def _d1_sign (longitude : ℚ) : ℤ := longitude_to_rashi longitude

/-- `_d2_sign` from src/calculations/divisional.py. -/
def _d2_sign (longitude : ℚ) : ℤ :=
  let rashi := longitude_to_rashi longitude
  let degree := pymod longitude 30
  if degree < 15 then (if rashi % 2 = 1 then 5 else 4)
  else (if rashi % 2 = 1 then 4 else 5)

/-- `_d3_sign` from src/calculations/divisional.py. -/
def _d3_sign (longitude : ℚ) : ℤ :=
  let rashi := longitude_to_rashi longitude
  let degree := pymod longitude 30
  if degree < 10 then rashi
  else if degree < 20 then (rashi - 1 + 4) % 12 + 1
  else (rashi - 1 + 8) % 12 + 1

/-- `_d7_sign` from src/calculations/divisional.py. -/
def _d7_sign (longitude : ℚ) : ℤ :=
  let rashi := longitude_to_rashi longitude
  let degree := pymod longitude 30
  let part := pyint (degree / (30 / 7))
  if rashi % 2 = 1 then (rashi - 1 + part) % 12 + 1
  else (rashi - 1 + 6 + part) % 12 + 1

/-- `_d10_sign` from src/calculations/divisional.py. -/
def _d10_sign (longitude : ℚ) : ℤ :=
  let rashi := longitude_to_rashi longitude
  let degree := pymod longitude 30
  let part := pyint (degree / 3)
  if rashi % 2 = 1 then (rashi - 1 + part) % 12 + 1
  else (rashi - 1 + 8 + part) % 12 + 1

/-- `_d12_sign` from src/calculations/divisional.py. -/
def _d12_sign (longitude : ℚ) : ℤ :=
  let rashi := longitude_to_rashi longitude
  let degree := pymod longitude 30
  let part := pyint (degree / 2.5)
  (rashi - 1 + part) % 12 + 1

/-- `_d60_sign` from src/calculations/divisional.py. -/
def _d60_sign (longitude : ℚ) : ℤ :=
  let rashi := longitude_to_rashi longitude
  let degree := pymod longitude 30
  let part := pyint (degree / 0.5)
  if rashi % 2 = 1 then (rashi - 1 + part) % 12 + 1
  else (rashi - 1 - part) % 12 + 1

/-- `_DIVISIONAL_FUNCS` from src/calculations/divisional.py: the
dispatcher table, in source order. -/
def _DIVISIONAL_FUNCS : List (String × (ℚ → ℤ)) :=
  [(("D1"), _d1_sign), (("D2"), _d2_sign), (("D3"), _d3_sign),
   (("D7"), _d7_sign), (("D9"), _d9_sign), (("D10"), _d10_sign),
   (("D12"), _d12_sign), (("D30"), _d30_sign), (("D60"), _d60_sign)]

/-- One graha entry of a divisional chart. -/
structure GrahaPlacement where
  graha : String
  rashi : ℤ
  rashi_name : String

/-- The dict returned by `compute_divisional_chart`. -/
structure DivisionalChart where
  chart_type : String
  lagna_rashi : ℤ
  lagna_rashi_name : String
  grahas : List GrahaPlacement

/-- `compute_divisional_chart` from src/calculations/divisional.py; the
raised `ValueError` is modelled as the error branch of `Except`. -/
def compute_divisional_chart (positions : String → ℚ) (asc : ℚ)
    (chart_type : String) : Except String DivisionalChart :=
  match _DIVISIONAL_FUNCS.lookup chart_type with
  | none => .error (("Unsupported divisional chart: ") ++ chart_type)
  | some f =>
    .ok { chart_type := chart_type,
          lagna_rashi := f asc,
          lagna_rashi_name := RASHI_NAMES.getD (f asc - 1).toNat emptyStr,
          grahas := GRAHA_NAMES.map (fun name =>
            { graha := name,
              rashi := f (positions name),
              rashi_name :=
                RASHI_NAMES.getD (f (positions name) - 1).toNat emptyStr }) }

/-- The accumulation loop of `compute_all_divisional_charts`; a raised
error propagates and aborts the whole computation. -/
def divisionalLoop (positions : String → ℚ) (asc : ℚ) :
    List String → Except String (List DivisionalChart)
  | [] => .ok []
  | t :: rest =>
    match compute_divisional_chart positions asc t with
    | .error e => .error e
    | .ok c =>
      match divisionalLoop positions asc rest with
      | .error e => .error e
      | .ok cs => .ok (c :: cs)

/-- `compute_all_divisional_charts` from src/calculations/divisional.py:
iterates the dispatcher keys in order. -/
def compute_all_divisional_charts (positions : String → ℚ) (asc : ℚ) :
    Except String (List DivisionalChart) :=
  divisionalLoop positions asc (_DIVISIONAL_FUNCS.map Prod.fst)

theorem lookup_eq_none_of_not_mem {α β : Type} [BEq α] [LawfulBEq α] :
    ∀ {l : List (α × β)} {a : α}, a ∉ l.map Prod.fst → l.lookup a = none := by
  intro l
  induction l with
  | nil => intro a h; rfl
  | cons kv t ih =>
    intro a h
    obtain ⟨k, v⟩ := kv
    simp only [List.map_cons, List.mem_cons] at h
    push_neg at h
    simp only [List.lookup]
    rw [show (a == k) = false from beq_eq_false_iff_ne.mpr h.1]
    exact ih h.2

/-- C9: an unsupported chart-type string yields the invalid-input error
and no result; every one of the 9 supported tags yields a chart; and
computing all charts iterates exactly the 9 supported chart types in
order. -/
theorem C9_divisional_dispatch (positions : String → ℚ) (asc : ℚ)
    (chart_type : String) :
    (chart_type ∉ _DIVISIONAL_FUNCS.map Prod.fst →
      compute_divisional_chart positions asc chart_type =
        .error (("Unsupported divisional chart: ") ++ chart_type)) ∧
    (chart_type ∈ _DIVISIONAL_FUNCS.map Prod.fst →
      ∃ c, compute_divisional_chart positions asc chart_type = .ok c ∧
        c.chart_type = chart_type) ∧
    (∃ cs, compute_all_divisional_charts positions asc = .ok cs ∧
      cs.map DivisionalChart.chart_type =
        [("D1"), ("D2"), ("D3"), ("D7"), ("D9"), ("D10"), ("D12"), ("D30"),
         ("D60")]) := by
  refine ⟨?_, ?_, ?_⟩
  · intro h
    unfold compute_divisional_chart
    rw [lookup_eq_none_of_not_mem h]
  · intro h
    simp only [_DIVISIONAL_FUNCS, List.map_cons, List.map_nil] at h
    fin_cases h <;> exact ⟨_, rfl, rfl⟩
  · exact ⟨_, rfl, rfl⟩

/-- Witness for C9: the tag D5 is rejected with the error message, the
tag D9 is accepted, and the all-charts iteration yields the 9 tags. -/
theorem C9_witness :
    compute_divisional_chart (fun _ => 0) 0 ("D5") =
      .error (("Unsupported divisional chart: ") ++ ("D5")) ∧
    (∃ c, compute_divisional_chart (fun _ => 0) 0 ("D9") = .ok c ∧
      c.chart_type = ("D9")) ∧
    (∃ cs, compute_all_divisional_charts (fun _ => 0) 0 = .ok cs ∧
      cs.map DivisionalChart.chart_type =
        [("D1"), ("D2"), ("D3"), ("D7"), ("D9"), ("D10"), ("D12"), ("D30"),
         ("D60")]) :=
  ⟨(C9_divisional_dispatch (fun _ => 0) 0 ("D5")).1 (by decide),
   (C9_divisional_dispatch (fun _ => 0) 0 ("D9")).2.1 (by decide),
   (C9_divisional_dispatch (fun _ => 0) 0 ("D9")).2.2⟩

end VedicJyotish
